import Mathlib

/-!
Shallow embedding of the gai-cli core (src/gai/fs.py, src/gai/agent.py,
src/gai/chat.py) and proofs about the behaviour its specification claims.

Modelling conventions:
* An absolute filesystem path is a list of components (the POSIX string form
  is the slash-joined rendering).  An input path as passed by the model or the
  user is a flag saying whether it is absolute plus its components; the empty
  relative path (absolute = false, comps = []) models the Python empty string.
* Path resolution (Path(p).resolve()) is modelled on components: relative
  paths are joined to the current working directory, then dot and dot-dot
  components are normalised.  Symbolic links are outside the model.
* The filesystem is an association list from absolute component paths to file
  contents; directories exist implicitly as proper prefixes of file paths.
* Python string operations act on code points, so they are modelled on the
  character list underlying a Lean string, with structural recursion.
* Python dictionaries parsed from model output are modelled by the PyVal
  inductive; missing keys are absent entries of the association list.
-/

deriving instance DecidableEq for Except

namespace Gai

/-- Python str.startswith, on code points. -/
def pyStartswith (s pre : String) : Bool :=
  pre.data.isPrefixOf s.data

/-- Whitespace recognised by Python str.strip (the common subset). -/
def pySpace (c : Char) : Bool :=
  c == ' ' || c == '\t' || c == '\n' || c == '\r'

/-- Python str.strip: drop leading and trailing whitespace. -/
def pyStrip (s : String) : String :=
  ⟨((s.data.dropWhile pySpace).reverse.dropWhile pySpace).reverse⟩

/-- Python str.lower, for the ASCII range that the embedded code compares. -/
def pyLower (s : String) : String :=
  ⟨s.data.map Char.toLower⟩

/-- Python slicing s[:n] on code points. -/
def pyTake (s : String) (n : Nat) : String :=
  ⟨s.data.take n⟩

/-- Python slicing s[n:] on code points. -/
def pyDrop (s : String) (n : Nat) : String :=
  ⟨s.data.drop n⟩

/-- Join a list of strings with a separator, as sep.join(lines). -/
def pyJoin (sep : String) : List String → String
  | [] => ""
  | [s] => s
  | s :: rest => s ++ sep ++ pyJoin sep rest

/-- Split a character list at newline characters. -/
def splitNlAux (acc : List Char) : List Char → List (List Char)
  | [] => [acc.reverse]
  | c :: rest =>
    if c = '\n' then acc.reverse :: splitNlAux [] rest
    else splitNlAux (c :: acc) rest

/-- Python str.splitlines restricted to newline separators (inputs in this
model are pre-stripped, so there is no trailing newline). -/
def pySplitlines (s : String) : List String :=
  (splitNlAux [] s.data).map fun cs => ⟨cs⟩

/-- A path as given in an action: absolute or relative, with its components.
The Python empty string path corresponds to absolute = false, comps = []. -/
structure InputPath where
  absolute : Bool
  comps : List String
deriving DecidableEq, Repr

/-- Normalise path components, dropping dot components and resolving dot-dot
against the accumulator (held in reverse), as Path.resolve does. -/
def resolveAux (acc : List String) : List String → List String
  | [] => acc.reverse
  | c :: rest =>
    if c = "." ∨ c = "" then resolveAux acc rest
    else if c = ".." then resolveAux (acc.drop 1) rest
    else resolveAux (c :: acc) rest

/-- Resolve an input path against the (already resolved) working directory,
modelling Path(path).resolve() in validate_path. -/
def resolvePath (cwd : List String) (p : InputPath) : List String :=
  if p.absolute then resolveAux [] p.comps else resolveAux cwd.reverse p.comps

/-- POSIX string rendering of an absolute component path, as str(target_path). -/
def render (comps : List String) : String :=
  "/" ++ pyJoin "/" comps

/-- String rendering of an input path, used only inside result messages. -/
def renderInput (p : InputPath) : String :=
  (if p.absolute then "/" else "") ++ pyJoin "/" p.comps

/-- IGNORED_DIRS from fs.py. -/
def IGNORED_DIRS : List String :=
  [".git", "__pycache__", "node_modules", "venv", ".venv",
   "dist", "build", ".idea", ".vscode", "coverage"]

/-- SYSTEM_PATHS from fs.py. -/
def SYSTEM_PATHS : List String :=
  ["C:\\Windows", "C:\\Program Files", "C:\\Program Files (x86)",
   "/etc", "/usr", "/bin", "/sbin", "/var", "/opt"]

/-- validate_path from fs.py: resolve the path, require it inside the working
directory, reject system path string prefixes and ignored components.  An
error value models a raised UnsafePathError with the same message shape. -/
def validate_path (cwd : List String) (p : InputPath) : Except String (List String) :=
  let target := resolvePath cwd p
  if ¬ (cwd.isPrefixOf target = true) then
    .error ("Path restricted: " ++ renderInput p ++ " is outside the project directory.")
  else if SYSTEM_PATHS.any (fun sp => pyStartswith (render target) sp) then
    .error ("Path blocked: " ++ renderInput p ++ " is a system directory.")
  else if target.any (fun part => IGNORED_DIRS.contains part) then
    .error ("Path restricted: Cannot modify files in " ++ renderInput p ++ ".")
  else
    .ok target

/-- The filesystem: an association list from absolute component paths to file
contents.  Directories exist implicitly as proper prefixes of file paths. -/
abbrev FS : Type := List (List String × String)

/-- Content of the file at a path, if a file is there. -/
def fsLookup (fs : FS) (p : List String) : Option String :=
  match fs with
  | [] => none
  | e :: rest => if e.1 = p then some e.2 else fsLookup rest p

/-- Path.exists in the model: a file is at the path, or the path is a
directory because some file lies strictly below it. -/
def existsPath (fs : FS) (p : List String) : Bool :=
  fs.any fun e => p.isPrefixOf e.1

/-- The path is an existing directory: some file lies strictly below it. -/
def isDirAt (fs : FS) (p : List String) : Bool :=
  fs.any fun e => p.isPrefixOf e.1 && p ≠ e.1

/-- A file sits on a proper prefix of the path, so mkdir(parents=True) or the
write itself would fail with a filesystem error. -/
def fileBlocks (fs : FS) (p : List String) : Bool :=
  fs.any fun e => e.1.isPrefixOf p && e.1 ≠ p

/-- Overwrite or create the file at a path, as Path.write_text. -/
def fsWrite (fs : FS) (p : List String) (c : String) : FS :=
  (p, c) :: fs.filter fun e => ¬ e.1 = p

/-- Result status strings used by apply_actions in fs.py. -/
inductive Status where
  | pending
  | success
  | error
deriving DecidableEq, Repr

instance : BEq Status := ⟨fun a b => decide (a = b)⟩

/-- One result dict of apply_actions: path, status, message. -/
structure ActionResult where
  path : InputPath
  status : Status
  message : String
deriving DecidableEq, Repr

/-- One action dict from a plan.  Absent dict keys are none; the path string
is carried pre-parsed as an InputPath. -/
structure Action where
  kind : Option String
  path : Option InputPath
  content : Option String
deriving DecidableEq, Repr

/-- action.get("action", "").lower() from fs.py. -/
def actType (a : Action) : String :=
  pyLower (a.kind.getD "")

/-- action.get("path", "") from fs.py, on pre-parsed paths. -/
def pathD (a : Action) : InputPath :=
  a.path.getD ⟨false, []⟩

/-- action.get("content", "") from fs.py. -/
def contentD (a : Action) : String :=
  a.content.getD ""

/-- The body of the per-action try block of apply_actions, after path
validation: dispatch on the action kind and produce the new filesystem plus
the final status and message.  A raised exception is an error status carrying
the exception message. -/
def applyOneCore (fs : FS) (a : Action) (target : List String) : FS × Status × String :=
  if actType a = "create" ∨ actType a = "write" ∨ actType a = "replace" then
    if fileBlocks fs target = true then
      (fs, .error, "Not a directory: " ++ renderInput (pathD a))
    else if actType a = "create" ∧ existsPath fs target = true then
      (fs, .error, "File already exists (action=create)")
    else if isDirAt fs target = true then
      (fs, .error, "Is a directory: " ++ renderInput (pathD a))
    else
      (fsWrite fs target (contentD a), .success, "Written: " ++ renderInput (pathD a))
  else if actType a = "append" then
    if existsPath fs target = false then
      (fs, .error, "File does not exist (action=append)")
    else
      match fsLookup fs target with
      | some c0 =>
        (fsWrite fs target (c0 ++ contentD a), .success, "Appended to: " ++ renderInput (pathD a))
      | none => (fs, .error, "Is a directory: " ++ renderInput (pathD a))
  else
    (fs, .error, "Unknown action: " ++ actType a)

/-- One iteration of the loop of apply_actions: validate the path, then run
the action body; any failure becomes an error result and the loop goes on. -/
def applyOne (cwd : List String) (fs : FS) (a : Action) : FS × ActionResult :=
  match validate_path cwd (pathD a) with
  | .error e => (fs, ⟨pathD a, .error, e⟩)
  | .ok target =>
    let out := applyOneCore fs a target
    (out.1, ⟨pathD a, out.2.1, out.2.2⟩)

/-- apply_actions from fs.py: fold applyOne over the batch, collecting one
result per action in order. -/
def apply_actions (cwd : List String) (fs : FS) : List Action → FS × List ActionResult
  | [] => (fs, [])
  | a :: rest =>
    let step := applyOne cwd fs a
    let restOut := apply_actions cwd step.1 rest
    (restOut.1, step.2 :: restOut.2)

/-- A parsed Python value as far as validate_plan in agent.py inspects it:
strings, lists, dictionaries, and anything else. -/
inductive PyVal where
  | pyStr (s : String)
  | pyList (xs : List PyVal)
  | pyDict (kvs : List (String × PyVal))
  | pyOther
deriving Repr

/-- Dictionary lookup, first matching key. -/
def pyLookup (kvs : List (String × PyVal)) (k : String) : Option PyVal :=
  match kvs with
  | [] => none
  | e :: rest => if e.1 = k then some e.2 else pyLookup rest k

/-- validate_plan from agent.py: the value must be a dict with a string under
the plan key and a list under the actions key, and every list element must be
a dict that has both an action key and a path key.  Only key presence is
checked for the elements. -/
def validate_plan (v : PyVal) : Bool :=
  match v with
  | .pyDict kvs =>
    (match pyLookup kvs "plan" with
     | some (.pyStr _) => true
     | _ => false) &&
    (match pyLookup kvs "actions" with
     | some (.pyList xs) =>
       xs.all fun a =>
         match a with
         | .pyDict akvs => (pyLookup akvs "action").isSome && (pyLookup akvs "path").isSome
         | _ => false
     | _ => false)
  | _ => false

/-- Strip a leading markdown fence line from already stripped text, and a
trailing fence line when present, as the fence branch of generate_plan. -/
def stripFences (s : String) : String :=
  if pyStartswith s "```" then
    let lines := (pySplitlines s).drop 1
    let lines :=
      if lines ≠ [] ∧ pyStrip (lines.getLast?.getD "") = "```" then lines.dropLast
      else lines
    pyJoin "\n" lines
  else s

/-- Strip a literal leading json tag, case-insensitively, as generate_plan. -/
def stripJsonTag (s : String) : String :=
  if pyStartswith (pyLower s) "json" then pyStrip (pyDrop s 4) else s

/-- The cleaning pipeline of generate_plan in agent.py: strip whitespace,
strip markdown fences, strip a leading json tag.  The output is the text
handed to the JSON parser and then to the literal parser. -/
def cleanText (raw : String) : String :=
  stripJsonTag (stripFences (pyStrip raw))

/-- Left brace character, written by code point. -/
def lbrace : Char := Char.ofNat 123

/-- Right brace character, written by code point. -/
def rbrace : Char := Char.ofNat 125

/-- Modelled from the spec: the candidate the specification describes, the
inclusive substring of the trimmed text from the first left brace to the last
right brace.  This definition follows the words of the claim and is compared
against the cleaning pipeline the code actually has. -/
def braceCandidate (raw : String) : Option String :=
  let cs := (pyStrip raw).data
  match cs.findIdx? (fun c => c = lbrace), (cs.reverse.findIdx? fun c => c = rbrace) with
  | some i, some jr =>
    let j := cs.length - 1 - jr
    if i ≤ j then some ⟨(cs.drop i).take (j - i + 1)⟩ else none
  | _, _ => none

/-- Outcome of generate_plan, with the printed failure data carried as
values: transportFailed models the early return on a model call exception,
exhausted carries the printed excerpt of the last raw response. -/
inductive GenResult where
  | success (plan : PyVal)
  | transportFailed
  | exhausted (excerpt : String)
deriving Repr

/-- The amended prompt built by generate_plan for a retry after an invalid
response, from the base prompt and the error text. -/
def retryPrompt (base err : String) : String :=
  base ++ "\n\n" ++
  "PREVIOUS RESPONSE WAS INVALID JSON. ERROR: " ++ err ++ "\n" ++
  "CRITICAL: YOU MUST RETURN VALID STRICT JSON. NO MARKDOWN. NO COMMENTS.\n" ++
  "ESCAPE NEWLINES IN STRINGS."

/-- The parse step of one attempt of generate_plan: clean the raw text, try
the JSON parser and then the literal parser (both abstract, as json.loads and
ast.literal_eval are library calls), then check the plan shape.  The error
string is what the except clause would see. -/
def parsePlan (jsonParse astParse : String → Except String PyVal) (raw : String) :
    Except String PyVal :=
  let clean := cleanText raw
  let parsed :=
    match jsonParse clean with
    | .ok v => Except.ok v
    | .error _ => astParse clean
  match parsed with
  | .error e => .error e
  | .ok v =>
    if validate_plan v then .ok v
    else .error "Parsed JSON does not match expected schema (missing keys or wrong types)."

/-- The attempt loop of generate_plan: call the model with the current
prompt, return immediately on a transport error, return the plan on a valid
response, otherwise retry with the amended prompt while retries remain.  The
second component counts model calls. -/
def genLoop (respond : String → Except String String)
    (jsonParse astParse : String → Except String PyVal) (base : String) :
    Nat → String → Nat → GenResult × Nat
  | retriesLeft, prompt, calls =>
    match respond prompt with
    | .error _ => (.transportFailed, calls + 1)
    | .ok text =>
      match parsePlan jsonParse astParse text with
      | .ok v => (.success v, calls + 1)
      | .error e =>
        match retriesLeft with
        | 0 => (.exhausted (pyTake text 500), calls + 1)
        | n + 1 => genLoop respond jsonParse astParse base n (retryPrompt base e) (calls + 1)

/-- generate_plan from agent.py, over abstract model and parser
collaborators: up to max_retries = 2 retries, three attempts in total. -/
def generate_plan (respond : String → Except String String)
    (jsonParse astParse : String → Except String PyVal) (base : String) :
    GenResult × Nat :=
  genLoop respond jsonParse astParse base 2 base 0

/-- One turn of the session history: role and content. -/
structure Turn where
  role : String
  content : String
deriving DecidableEq, Repr

/-- One status record written by config.save_state. -/
structure StateRec where
  lastTask : String
  status : String
  errors : List String
deriving DecidableEq, Repr

/-- The plan dict as the chat loop reads it: the summary under the plan key
when present, and the list of action dicts.  A missing or empty actions field
is the empty list, which the loop treats as the no-op plan. -/
structure ChatPlan where
  summary : Option String
  actions : List Action
deriving Repr

/-- Substring membership on code points, used for the error line filter. -/
def containsSub (s sub : String) : Bool :=
  (List.range (s.data.length + 1)).any fun i => sub.data.isPrefixOf (s.data.drop i)

/-- The error excerpt saved on a failed verification run: lines of the
combined output whose lowercase form mentions error, first five. -/
def errorLines (out err : String) : List String :=
  ((pySplitlines (out ++ "\n" ++ err)).filter fun l => containsSub (pyLower l) "error").take 5

/-- The correction request built after a failed verification run. -/
def correctionRequest (out err : String) : String :=
  "The previous changes caused test failures:\n\n" ++ (out ++ "\n" ++ err) ++
  "\n\nPlease fix the errors."

/-- What one round of the agent loop in start_chat_session produced:
whether the verification step was reached, the session history afterwards,
the status records saved in order, the filesystem afterwards, and the next
request when the loop self-corrects instead of stopping. -/
structure RoundOut where
  ranTests : Bool
  history : List Turn
  states : List StateRec
  fs : FS
  nextRequest : Option String
deriving Repr

/-- One round of the inner agent loop of start_chat_session in chat.py, over
the plan already returned by the planner, the confirmation answer, and the
verification subprocess outcome (none models a spawn failure, some carries
exit code, stdout and stderr).  The history append and the save_state call
sit before the success check, exactly as in the code. -/
def agentRound (cwd : List String) (fs : FS) (history : List Turn) (request : String)
    (planOpt : Option ChatPlan) (confirm : Bool)
    (test : Option (Int × String × String)) : RoundOut :=
  match planOpt with
  | none => ⟨false, history, [], fs, none⟩
  | some plan =>
    if plan.actions.isEmpty then ⟨false, history, [], fs, none⟩
    else if confirm = false then ⟨false, history, [], fs, none⟩
    else
      let applied := apply_actions cwd fs plan.actions
      let success := applied.2.all fun r => r.status == Status.success
      let hist := history ++
        [⟨"user", request⟩,
         ⟨"assistant", "Applied plan: " ++ plan.summary.getD "No summary"⟩]
      let st0 : StateRec := ⟨request, "applying", []⟩
      if success then
        match test with
        | none => ⟨true, hist, [st0], applied.1, none⟩
        | some (code, out, err) =>
          if code = 0 then
            ⟨true, hist, [st0, ⟨request, "completed", []⟩], applied.1, none⟩
          else
            ⟨true, hist, [st0, ⟨request, "failed", errorLines out err⟩], applied.1,
             some (correctionRequest out err)⟩
      else ⟨false, hist, [st0], applied.1, none⟩

/-! Helper lemmas shared by the claim theorems. -/

lemma applyOne_path (cwd : List String) (fs : FS) (a : Action) :
    ((applyOne cwd fs a).2).path = pathD a := by
  unfold applyOne
  cases hv : validate_path cwd (pathD a) <;> simp [hv]

lemma applyOne_status_not_pending (cwd : List String) (fs : FS) (a : Action) :
    ((applyOne cwd fs a).2).status ≠ Status.pending := by
  unfold applyOne
  cases hv : validate_path cwd (pathD a) with
  | error e => simp [hv]
  | ok t =>
    simp only [hv]
    unfold applyOneCore
    repeat' split
    all_goals simp

lemma apply_actions_cons (cwd : List String) (fs : FS) (a : Action) (rest : List Action) :
    apply_actions cwd fs (a :: rest)
      = ((apply_actions cwd (applyOne cwd fs a).1 rest).1,
         (applyOne cwd fs a).2 :: (apply_actions cwd (applyOne cwd fs a).1 rest).2) := rfl

lemma apply_actions_length (cwd : List String) (fs : FS) (actions : List Action) :
    (apply_actions cwd fs actions).2.length = actions.length := by
  induction actions generalizing fs with
  | nil => rfl
  | cons a rest ih => simp [apply_actions_cons, ih]

lemma apply_actions_paths (cwd : List String) (fs : FS) (actions : List Action) :
    (apply_actions cwd fs actions).2.map ActionResult.path = actions.map pathD := by
  induction actions generalizing fs with
  | nil => rfl
  | cons a rest ih => simp [apply_actions_cons, applyOne_path, ih]

lemma apply_actions_no_pending (cwd : List String) (fs : FS) (actions : List Action) :
    ((apply_actions cwd fs actions).2.all fun r => !(r.status == Status.pending)) = true := by
  induction actions generalizing fs with
  | nil => rfl
  | cons a rest ih =>
    simp only [apply_actions_cons, List.all_cons, Bool.and_eq_true, ih, and_true]
    have h := applyOne_status_not_pending cwd fs a
    cases hs : ((applyOne cwd fs a).2).status <;> simp_all

lemma genLoop_respond_error (respond : String → Except String String)
    (jp ap : String → Except String PyVal) (base : String) (n : Nat)
    (prompt : String) (calls : Nat) (e : String) (he : respond prompt = .error e) :
    genLoop respond jp ap base n prompt calls = (.transportFailed, calls + 1) := by
  rw [genLoop]
  simp only [he]

lemma genLoop_respond_ok_valid (respond : String → Except String String)
    (jp ap : String → Except String PyVal) (base : String) (n : Nat)
    (prompt : String) (calls : Nat) (text : String) (v : PyVal)
    (hr : respond prompt = .ok text) (hp : parsePlan jp ap text = .ok v) :
    genLoop respond jp ap base n prompt calls = (.success v, calls + 1) := by
  rw [genLoop]
  simp only [hr, hp]

lemma genLoop_parse_error_zero (respond : String → Except String String)
    (jp ap : String → Except String PyVal) (base : String)
    (prompt : String) (calls : Nat) (text e : String)
    (hr : respond prompt = .ok text) (hp : parsePlan jp ap text = .error e) :
    genLoop respond jp ap base 0 prompt calls = (.exhausted (pyTake text 500), calls + 1) := by
  rw [genLoop]
  simp only [hr, hp]

lemma genLoop_parse_error_succ (respond : String → Except String String)
    (jp ap : String → Except String PyVal) (base : String) (m : Nat)
    (prompt : String) (calls : Nat) (text e : String)
    (hr : respond prompt = .ok text) (hp : parsePlan jp ap text = .error e) :
    genLoop respond jp ap base (m + 1) prompt calls
      = genLoop respond jp ap base m (retryPrompt base e) (calls + 1) := by
  rw [genLoop]
  simp only [hr, hp]

lemma genLoop_calls_le (respond : String → Except String String)
    (jp ap : String → Except String PyVal) (base : String) :
    ∀ (n : Nat) (prompt : String) (calls : Nat),
      (genLoop respond jp ap base n prompt calls).2 ≤ calls + n + 1 := by
  intro n
  induction n with
  | zero =>
    intro prompt calls
    cases hr : respond prompt with
    | error e => rw [genLoop_respond_error respond jp ap base 0 prompt calls e hr]
    | ok text =>
      cases hp : parsePlan jp ap text with
      | ok v => rw [genLoop_respond_ok_valid respond jp ap base 0 prompt calls text v hr hp]
      | error e => rw [genLoop_parse_error_zero respond jp ap base prompt calls text e hr hp]
  | succ m ih =>
    intro prompt calls
    cases hr : respond prompt with
    | error e =>
      rw [genLoop_respond_error respond jp ap base (m + 1) prompt calls e hr]
      omega
    | ok text =>
      cases hp : parsePlan jp ap text with
      | ok v =>
        rw [genLoop_respond_ok_valid respond jp ap base (m + 1) prompt calls text v hr hp]
        omega
      | error e =>
        rw [genLoop_parse_error_succ respond jp ap base m prompt calls text e hr hp]
        calc (genLoop respond jp ap base m (retryPrompt base e) (calls + 1)).2
            ≤ (calls + 1) + m + 1 := ih (retryPrompt base e) (calls + 1)
          _ ≤ calls + (m + 1) + 1 := by omega

lemma strAppendEmpty (s : String) : s ++ "" = s := by
  apply String.ext
  rw [String.data_append]
  exact List.append_nil s.data

lemma isDirAt_exists (fs : FS) (p : List String) (h : isDirAt fs p = true) :
    existsPath fs p = true := by
  unfold isDirAt at h
  unfold existsPath
  obtain ⟨e, he, hprop⟩ := List.any_eq_true.mp h
  rw [Bool.and_eq_true] at hprop
  exact List.any_eq_true.mpr ⟨e, he, hprop.1⟩

lemma fsLookup_some_exists (fs : FS) (p : List String) (c : String)
    (h : fsLookup fs p = some c) : existsPath fs p = true := by
  induction fs with
  | nil => simp [fsLookup] at h
  | cons e rest ih =>
    unfold fsLookup at h
    unfold existsPath
    rw [List.any_cons, Bool.or_eq_true]
    by_cases hep : e.1 = p
    · left
      rw [hep, List.isPrefixOf_iff_prefix]
    · rw [if_neg hep] at h
      right
      exact ih h

lemma fsWrite_lookup (fs : FS) (p : List String) (c : String) (q : List String) :
    fsLookup (fsWrite fs p c) q = if p = q then some c else fsLookup fs q := by
  unfold fsWrite
  rw [fsLookup]
  by_cases hpq : p = q
  · rw [if_pos hpq, if_pos hpq]
  · rw [if_neg hpq, if_neg hpq]
    induction fs with
    | nil => rfl
    | cons e rest ih =>
      by_cases hep : e.1 = p
      · rw [List.filter_cons_of_neg (by simp [hep])]
        rw [ih]
        rw [fsLookup, if_neg (by rw [hep]; exact hpq)]
      · rw [List.filter_cons_of_pos (by simp [hep])]
        rw [fsLookup, fsLookup, ih]

/-! Claim theorems. -/

/-- C1 (amended): every input path whose resolved form is not under the
working directory is rejected by validate_path; every input path that
resolves inside the working directory, whose resolved form contains no
ignored-directory component and whose string form does not begin with a
system-reserved prefix, is accepted and the resolved absolute path under the
working directory is returned. -/
theorem validate_path_inside_and_clean_ok (cwd : List String) (p : InputPath) :
    (¬ cwd.isPrefixOf (resolvePath cwd p) = true →
      ∃ e, validate_path cwd p = .error e) ∧
    (cwd.isPrefixOf (resolvePath cwd p) = true →
      SYSTEM_PATHS.any (fun sp => pyStartswith (render (resolvePath cwd p)) sp) = false →
      ((resolvePath cwd p).any fun part => IGNORED_DIRS.contains part) = false →
      validate_path cwd p = .ok (resolvePath cwd p)) := by
  constructor
  · intro h
    have hres : validate_path cwd p
        = .error ("Path restricted: " ++ renderInput p ++ " is outside the project directory.") := by
      unfold validate_path
      rw [if_pos h]
    exact ⟨_, hres⟩
  · intro h1 h2 h3
    unfold validate_path
    rw [if_neg (by simp [h1]), if_neg (by simp only [h2]; simp),
      if_neg (by simp only [h3]; simp)]

/-- Witness for C1: a concrete relative path inside a clean working
directory is accepted with its resolved absolute form. -/
theorem validate_path_inside_and_clean_ok_w :
    validate_path ["home", "u", "proj"] ⟨false, ["srcdir", "a.txt"]⟩
      = .ok ["home", "u", "proj", "srcdir", "a.txt"] :=
  (validate_path_inside_and_clean_ok ["home", "u", "proj"] ⟨false, ["srcdir", "a.txt"]⟩).2
    (by decide) (by decide) (by decide)

/-- Counterexample to C1 as stated: with the working directory under a
system-reserved prefix, a path that resolves inside the working directory and
contains no ignored component is still rejected, because the string form
begins with a system path prefix. -/
theorem validate_path_system_prefix_cex :
    ["var", "www"].isPrefixOf (resolvePath ["var", "www"] ⟨true, ["var", "www", "app.txt"]⟩)
        = true ∧
    ((resolvePath ["var", "www"] ⟨true, ["var", "www", "app.txt"]⟩).any fun part =>
        IGNORED_DIRS.contains part) = false ∧
    validate_path ["var", "www"] ⟨true, ["var", "www", "app.txt"]⟩
      = .error "Path blocked: /var/www/app.txt is a system directory." := by
  decide

/-- C2: apply_actions returns one result per action, in order, and the path
of the result at every position is the path field of the action there, the
empty path when the field is absent. -/
theorem apply_actions_length_and_paths (cwd : List String) (fs : FS) (actions : List Action) :
    ((apply_actions cwd fs actions).2.length = actions.length) ∧
    ((apply_actions cwd fs actions).2.map ActionResult.path = actions.map pathD) :=
  ⟨apply_actions_length cwd fs actions, apply_actions_paths cwd fs actions⟩

/-- C3: apply_actions is total over batches: every action produces exactly
one result whose status is success or error (never the initial pending), and
a failing action does not stop the batch, shown also on a concrete batch
whose first action fails on an unsafe path while the second still runs. -/
theorem apply_actions_total_per_action_errors (cwd : List String) (fs : FS)
    (actions : List Action) :
    ((apply_actions cwd fs actions).2.length = actions.length) ∧
    (((apply_actions cwd fs actions).2.all fun r => !(r.status == Status.pending)) = true) ∧
    apply_actions ["p"] []
        [⟨some "write", some ⟨true, ["etc", "x"]⟩, some "c"⟩,
         ⟨some "create", some ⟨false, ["a.txt"]⟩, some "c2"⟩]
      = ([(["p", "a.txt"], "c2")],
         [⟨⟨true, ["etc", "x"]⟩, .error,
           "Path restricted: /etc/x is outside the project directory."⟩,
          ⟨⟨false, ["a.txt"]⟩, .success, "Written: a.txt"⟩]) :=
  ⟨apply_actions_length cwd fs actions, apply_actions_no_pending cwd fs actions, by decide⟩

/-- C5: the executor has no move branch: a move action whose source exists
and whose destination does not is answered with an unknown-action error and
the filesystem is left unchanged, contrary to the documented move support. -/
theorem move_action_unknown_eval :
    apply_actions ["p"] [(["p", "a.txt"], "hi")]
        [⟨some "move", some ⟨false, ["a.txt"]⟩, some "b.txt"⟩]
      = ([(["p", "a.txt"], "hi")],
         [⟨⟨false, ["a.txt"]⟩, .error, "Unknown action: move"⟩]) ∧
    fsLookup [(["p", "a.txt"], "hi")] ["p", "b.txt"] = none := by
  decide

/-- Counterexample to C4 as stated: on raw text with prose around the braced
object, the cleaning pipeline of generate_plan hands the whole trimmed text
to the parsers, not the inclusive substring from the first left brace to the
last right brace that the claim describes. -/
theorem clean_text_keeps_prose_cex :
    cleanText " Note: \x7b\x22plan\x22: \x22x\x22, \x22actions\x22: []\x7d Done "
        = "Note: \x7b\x22plan\x22: \x22x\x22, \x22actions\x22: []\x7d Done" ∧
    braceCandidate " Note: \x7b\x22plan\x22: \x22x\x22, \x22actions\x22: []\x7d Done "
        = some "\x7b\x22plan\x22: \x22x\x22, \x22actions\x22: []\x7d" ∧
    ¬ cleanText " Note: \x7b\x22plan\x22: \x22x\x22, \x22actions\x22: []\x7d Done "
        = "\x7b\x22plan\x22: \x22x\x22, \x22actions\x22: []\x7d" := by
  decide

/-- C4 (amended): extraction trims whitespace, strips a leading markdown
fence line with a matching trailing fence line, and strips a literal leading
json tag; when neither marker is present the parse candidate is the whole
trimmed text, so surrounding prose stays in the candidate and no brace
substring is taken. -/
theorem clean_text_whole_trimmed (s : String)
    (h1 : pyStartswith (pyStrip s) "```" = false)
    (h2 : pyStartswith (pyLower (pyStrip s)) "json" = false) :
    cleanText s = pyStrip s := by
  have hf : stripFences (pyStrip s) = pyStrip s := by
    unfold stripFences
    rw [if_neg (by simp [h1])]
  unfold cleanText
  rw [hf]
  unfold stripJsonTag
  rw [if_neg (by simp [h2])]

/-- Witness for C4: prose-wrapped text is passed through whole, trimmed. -/
theorem clean_text_whole_trimmed_w :
    cleanText " Note: \x7b\x22a\x22: 1\x7d ok " = pyStrip " Note: \x7b\x22a\x22: 1\x7d ok " :=
  clean_text_whole_trimmed " Note: \x7b\x22a\x22: 1\x7d ok " (by decide) (by decide)

/-- Counterexample to C6 as stated: a plan whose single action has an empty
action kind and an empty path passes validate_plan, because only key
presence is checked. -/
theorem validate_plan_accepts_empty_fields_cex :
    validate_plan (.pyDict
      [("plan", .pyStr "x"),
       ("actions", .pyList [.pyDict [("action", .pyStr ""), ("path", .pyStr "")]])]) = true := by
  decide

/-- C6 (amended): validate_plan accepts exactly the dictionaries with a
string under the plan key and a list under the actions key whose every
element is a dictionary carrying both an action key and a path key; the
values under those keys are never inspected, so empty kinds and paths are
accepted, and the rejection raises one generic schema error rather than
naming the field. -/
theorem validate_plan_key_presence_iff (v : PyVal) :
    validate_plan v = true ↔
      ∃ kvs, v = .pyDict kvs ∧
        (∃ s, pyLookup kvs "plan" = some (.pyStr s)) ∧
        ∃ xs, pyLookup kvs "actions" = some (.pyList xs) ∧
          ∀ a ∈ xs, ∃ akvs, a = .pyDict akvs ∧
            (pyLookup akvs "action").isSome = true ∧ (pyLookup akvs "path").isSome = true := by
  cases v with
  | pyStr s => simp [validate_plan]
  | pyList xs => simp [validate_plan]
  | pyOther => simp [validate_plan]
  | pyDict kvs =>
    simp only [validate_plan, Bool.and_eq_true]
    constructor
    · rintro ⟨h1, h2⟩
      refine ⟨kvs, rfl, ?_, ?_⟩
      · cases hp : pyLookup kvs "plan" with
        | none => rw [hp] at h1; exact absurd h1 (by simp)
        | some vp =>
          cases vp with
          | pyStr s => exact ⟨s, rfl⟩
          | pyList l => rw [hp] at h1; exact absurd h1 (by simp)
          | pyDict d => rw [hp] at h1; exact absurd h1 (by simp)
          | pyOther => rw [hp] at h1; exact absurd h1 (by simp)
      · cases ha : pyLookup kvs "actions" with
        | none => rw [ha] at h2; exact absurd h2 (by simp)
        | some va =>
          cases va with
          | pyStr s => rw [ha] at h2; exact absurd h2 (by simp)
          | pyDict d => rw [ha] at h2; exact absurd h2 (by simp)
          | pyOther => rw [ha] at h2; exact absurd h2 (by simp)
          | pyList xs =>
            rw [ha] at h2
            refine ⟨xs, rfl, ?_⟩
            intro a haMem
            have hfa := List.all_eq_true.mp h2 a haMem
            cases a with
            | pyStr s => exact absurd hfa (by simp)
            | pyList l => exact absurd hfa (by simp)
            | pyOther => exact absurd hfa (by simp)
            | pyDict akvs =>
              simp only [Bool.and_eq_true] at hfa
              exact ⟨akvs, rfl, hfa.1, hfa.2⟩
    · rintro ⟨kvs2, heq, ⟨s, hp⟩, xs, ha, hall⟩
      obtain rfl : kvs = kvs2 := by injection heq
      rw [hp, ha]
      refine ⟨rfl, ?_⟩
      rw [List.all_eq_true]
      intro a haMem
      obtain ⟨akvs, rfl, hk1, hk2⟩ := hall a haMem
      simp [hk1, hk2]

/-- Witness for C6: the theorem applied to a concrete plan whose action has
both keys with empty string values shows it accepted. -/
theorem validate_plan_key_presence_iff_w :
    validate_plan (.pyDict
      [("plan", .pyStr "s"),
       ("actions", .pyList [.pyDict [("action", .pyStr ""), ("path", .pyStr "p")]])]) = true :=
  (validate_plan_key_presence_iff (.pyDict
      [("plan", .pyStr "s"),
       ("actions", .pyList [.pyDict [("action", .pyStr ""), ("path", .pyStr "p")]])])).mpr
    ⟨[("plan", .pyStr "s"),
      ("actions", .pyList [.pyDict [("action", .pyStr ""), ("path", .pyStr "p")]])],
     rfl, ⟨"s", rfl⟩,
     [.pyDict [("action", .pyStr ""), ("path", .pyStr "p")]], rfl,
     fun a ha => by
       rw [List.mem_singleton] at ha
       exact ⟨[("action", .pyStr ""), ("path", .pyStr "p")], ha, rfl, rfl⟩⟩

/-- C7: a transport failure on the first call returns failure after exactly
one model call with no retry; a valid first response returns the plan after
one call; three invalid responses exhaust the budget of two retries, the
second and third calls using the base prompt amended with the stricter
format instruction and the concrete error detail of the previous attempt,
and the run fails carrying the first five hundred characters of the last raw
response; and in every run the number of model calls is at most three. -/
theorem generate_plan_retry_policy (respond : String → Except String String)
    (jp ap : String → Except String PyVal) (base : String) :
    (∀ e, respond base = .error e →
      generate_plan respond jp ap base = (.transportFailed, 1)) ∧
    (∀ r0 v, respond base = .ok r0 → parsePlan jp ap r0 = .ok v →
      generate_plan respond jp ap base = (.success v, 1)) ∧
    (∀ r0 e0 r1 e1 r2 e2,
      respond base = .ok r0 → parsePlan jp ap r0 = .error e0 →
      respond (retryPrompt base e0) = .ok r1 → parsePlan jp ap r1 = .error e1 →
      respond (retryPrompt base e1) = .ok r2 → parsePlan jp ap r2 = .error e2 →
      generate_plan respond jp ap base = (.exhausted (pyTake r2 500), 3)) ∧
    (generate_plan respond jp ap base).2 ≤ 3 := by
  refine ⟨?_, ?_, ?_, ?_⟩
  · intro e he
    unfold generate_plan
    rw [genLoop_respond_error respond jp ap base 2 base 0 e he]
  · intro r0 v hr hp
    unfold generate_plan
    rw [genLoop_respond_ok_valid respond jp ap base 2 base 0 r0 v hr hp]
  · intro r0 e0 r1 e1 r2 e2 hr0 hp0 hr1 hp1 hr2 hp2
    unfold generate_plan
    rw [genLoop_parse_error_succ respond jp ap base 1 base 0 r0 e0 hr0 hp0,
      genLoop_parse_error_succ respond jp ap base 0 (retryPrompt base e0) 1 r1 e1 hr1 hp1,
      genLoop_parse_error_zero respond jp ap base (retryPrompt base e1) 2 r2 e2 hr2 hp2]
  · exact genLoop_calls_le respond jp ap base 2 base 0

/-- Witness for C7: with parsers that always fail, three attempts are made
along the amended prompts and the run fails with the excerpt of the last
response; the closed run evaluates exactly as the policy theorem states. -/
theorem generate_plan_retry_policy_w :
    generate_plan (fun _ => .ok "resp") (fun _ => .error "J") (fun _ => .error "bad syntax") "B"
      = (.exhausted (pyTake "resp" 500), 3) :=
  (generate_plan_retry_policy (fun _ => .ok "resp") (fun _ => .error "J")
      (fun _ => .error "bad syntax") "B").2.2.1
    "resp" "bad syntax" "resp" "bad syntax" "resp" "bad syntax"
    rfl rfl rfl rfl rfl rfl

/-- C8: in a confirmed round, the verification step is reached exactly when
the action list is non-empty and all results of the apply are success; when
some result is an error the round never reaches verification and stops
without a self-correction request. -/
theorem round_runs_verification_iff_all_success (cwd : List String) (fs : FS)
    (history : List Turn) (request : String) (plan : ChatPlan)
    (test : Option (Int × String × String)) :
    ((agentRound cwd fs history request (some plan) true test).ranTests
        = (!plan.actions.isEmpty &&
           (apply_actions cwd fs plan.actions).2.all fun r => r.status == Status.success)) ∧
    (((apply_actions cwd fs plan.actions).2.all fun r => r.status == Status.success) = false →
      (agentRound cwd fs history request (some plan) true test).ranTests = false ∧
      (agentRound cwd fs history request (some plan) true test).nextRequest = none) := by
  unfold agentRound
  cases hE : plan.actions.isEmpty with
  | true => simp [hE]
  | false =>
    cases hS : ((apply_actions cwd fs plan.actions).2.all fun r => r.status == Status.success) with
    | false => simp [hE, hS]
    | true =>
      cases test with
      | none => simp [hE, hS]
      | some t =>
        obtain ⟨code, out, err⟩ := t
        by_cases hc : code = 0 <;> simp [hE, hS, hc]

/-- Witness for C8: a confirmed round whose single action fails on an unsafe
path does not reach verification and stops. -/
theorem round_runs_verification_iff_all_success_w :
    ((apply_actions ["p"] [] [⟨some "write", some ⟨true, ["etc", "x"]⟩, some "c"⟩]).2.all
        fun r => r.status == Status.success) = false ∧
    (agentRound ["p"] [] [] "req"
        (some ⟨some "s", [⟨some "write", some ⟨true, ["etc", "x"]⟩, some "c"⟩]⟩) true
        (some (0, "", ""))).ranTests = false ∧
    (agentRound ["p"] [] [] "req"
        (some ⟨some "s", [⟨some "write", some ⟨true, ["etc", "x"]⟩, some "c"⟩]⟩) true
        (some (0, "", ""))).nextRequest = none :=
  ⟨by decide,
   ((round_runs_verification_iff_all_success ["p"] [] [] "req"
      ⟨some "s", [⟨some "write", some ⟨true, ["etc", "x"]⟩, some "c"⟩]⟩
      (some (0, "", ""))).2 (by decide)).1,
   ((round_runs_verification_iff_all_success ["p"] [] [] "req"
      ⟨some "s", [⟨some "write", some ⟨true, ["etc", "x"]⟩, some "c"⟩]⟩
      (some (0, "", ""))).2 (by decide)).2⟩

/-- C9: contrary to the claim, a confirmed round whose apply produced an
error result still appends the request and summary pair to the session
history and still persists an applying status record: the history append and
save_state calls sit before the success check in start_chat_session. -/
theorem round_persists_history_despite_error_eval :
    ((apply_actions ["p"] [] [⟨some "write", some ⟨true, ["etc", "x"]⟩, some "c"⟩]).2.all
        fun r => r.status == Status.success) = false ∧
    (agentRound ["p"] [] [] "fix"
        (some ⟨some "s", [⟨some "write", some ⟨true, ["etc", "x"]⟩, some "c"⟩]⟩) true
        none).history
      = [⟨"user", "fix"⟩, ⟨"assistant", "Applied plan: s"⟩] ∧
    (agentRound ["p"] [] [] "fix"
        (some ⟨some "s", [⟨some "write", some ⟨true, ["etc", "x"]⟩, some "c"⟩]⟩) true
        none).states
      = [⟨"fix", "applying", []⟩] := by
  decide

/-- C10: a plan whose action carries no content key still passes validation,
since only the action and path keys are inspected; the executor substitutes
the empty string: a create of a fresh safe path writes an empty file with a
success result, and an append to an existing safe file leaves every file
content unchanged with a success result. -/
theorem missing_content_defaults_empty (s : String) (akvs : List (String × PyVal))
    (cwd : List String) (fs : FS) (a b : Action) (t u : List String) (c0 : String) :
    ((pyLookup akvs "action").isSome = true → (pyLookup akvs "path").isSome = true →
      validate_plan (.pyDict [("plan", .pyStr s), ("actions", .pyList [.pyDict akvs])])
        = true) ∧
    (a.kind = some "create" → a.content = none →
      validate_path cwd (pathD a) = .ok t →
      existsPath fs t = false → fileBlocks fs t = false →
      applyOne cwd fs a
        = (fsWrite fs t "", ⟨pathD a, .success, "Written: " ++ renderInput (pathD a)⟩) ∧
      fsLookup (fsWrite fs t "") t = some "") ∧
    (b.kind = some "append" → b.content = none →
      validate_path cwd (pathD b) = .ok u →
      fsLookup fs u = some c0 →
      applyOne cwd fs b
        = (fsWrite fs u c0, ⟨pathD b, .success, "Appended to: " ++ renderInput (pathD b)⟩) ∧
      ∀ q, fsLookup (fsWrite fs u c0) q = fsLookup fs q) := by
  refine ⟨?_, ?_, ?_⟩
  · intro h1 h2
    unfold validate_plan
    simp only [pyLookup]
    simp [h1, h2]
  · intro hk hc hv hex hfb
    have hat : actType a = "create" := by
      unfold actType
      rw [hk]
      decide
    have hco : contentD a = "" := by
      unfold contentD
      rw [hc]
      rfl
    have hdir : ¬ isDirAt fs t = true := by
      intro hd
      have := isDirAt_exists fs t hd
      rw [hex] at this
      exact absurd this (by simp)
    constructor
    · unfold applyOne
      simp only [hv]
      unfold applyOneCore
      rw [if_pos (Or.inl hat), if_neg (by simp [hfb]),
        if_neg (by intro hcon; rw [hcon.2] at hex; exact absurd hex (by simp)),
        if_neg hdir, hco]
    · rw [fsWrite_lookup, if_pos rfl]
  · intro hk hc hv hL
    have hat : actType b = "append" := by
      unfold actType
      rw [hk]
      decide
    have hco : contentD b = "" := by
      unfold contentD
      rw [hc]
      rfl
    have hexu : existsPath fs u = true := fsLookup_some_exists fs u c0 hL
    constructor
    · unfold applyOne
      simp only [hv]
      unfold applyOneCore
      rw [if_neg (by rw [hat]; decide), if_pos hat,
        if_neg (by rw [hexu]; decide)]
      simp only [hL, hco, strAppendEmpty]
    · intro q
      rw [fsWrite_lookup]
      by_cases huq : u = q
      · rw [if_pos huq, ← huq, hL]
      · rw [if_neg huq]

/-- Witness for C10: a concrete plan whose create action has no content key
validates and writes an empty file; a concrete append action with no content
key succeeds and leaves the single existing file unchanged. -/
theorem missing_content_defaults_empty_w :
    validate_plan (.pyDict
      [("plan", .pyStr "x"),
       ("actions", .pyList [.pyDict [("action", .pyStr "create"), ("path", .pyStr "n")]])])
      = true ∧
    applyOne ["p"] [(["p", "old"], "o")] ⟨some "create", some ⟨false, ["n.txt"]⟩, none⟩
      = (fsWrite [(["p", "old"], "o")] ["p", "n.txt"] "",
         ⟨⟨false, ["n.txt"]⟩, .success, "Written: n.txt"⟩) ∧
    applyOne ["p"] [(["p", "old"], "o")] ⟨some "append", some ⟨false, ["old"]⟩, none⟩
      = (fsWrite [(["p", "old"], "o")] ["p", "old"] "o",
         ⟨⟨false, ["old"]⟩, .success, "Appended to: old"⟩) ∧
    fsLookup (fsWrite [(["p", "old"], "o")] ["p", "old"] "o") ["p", "old"]
      = fsLookup [(["p", "old"], "o")] ["p", "old"] :=
  ⟨(missing_content_defaults_empty "x"
      [("action", .pyStr "create"), ("path", .pyStr "n")] ["p"] [(["p", "old"], "o")]
      ⟨some "create", some ⟨false, ["n.txt"]⟩, none⟩
      ⟨some "append", some ⟨false, ["old"]⟩, none⟩
      ["p", "n.txt"] ["p", "old"] "o").1 (by decide) (by decide),
   ((missing_content_defaults_empty "x"
      [("action", .pyStr "create"), ("path", .pyStr "n")] ["p"] [(["p", "old"], "o")]
      ⟨some "create", some ⟨false, ["n.txt"]⟩, none⟩
      ⟨some "append", some ⟨false, ["old"]⟩, none⟩
      ["p", "n.txt"] ["p", "old"] "o").2.1 rfl rfl (by decide) (by decide) (by decide)).1,
   ((missing_content_defaults_empty "x"
      [("action", .pyStr "create"), ("path", .pyStr "n")] ["p"] [(["p", "old"], "o")]
      ⟨some "create", some ⟨false, ["n.txt"]⟩, none⟩
      ⟨some "append", some ⟨false, ["old"]⟩, none⟩
      ["p", "n.txt"] ["p", "old"] "o").2.2 rfl rfl (by decide) (by decide)).1,
   ((missing_content_defaults_empty "x"
      [("action", .pyStr "create"), ("path", .pyStr "n")] ["p"] [(["p", "old"], "o")]
      ⟨some "create", some ⟨false, ["n.txt"]⟩, none⟩
      ⟨some "append", some ⟨false, ["old"]⟩, none⟩
      ["p", "n.txt"] ["p", "old"] "o").2.2 rfl rfl (by decide) (by decide)).2 ["p", "old"]⟩

end Gai
